import Mathlib

/-!
Verification of the Alias party-game timer (`src/components/AliasTimer.tsx`).

The component keeps two pieces of state: a `TimerSettings` record (the three
configurable durations) and a `TimerState` record (the running timer).  All
mutation happens in a handful of small synchronous handlers, which we embed
here as pure functions:

* `tickResult` — the body of the `setInterval` callback (source lines 98-150),
  returning the next `TimerState` together with the list of side-effect
  intents (audio cues and toast notifications) the callback fires.
* `startTimer`, `pauseTimer`, `resetTimer`, `nextWord`,
  `updateTimerToSettings`, `toggleMode` — the command handlers
  (source lines 166-247).
* `setTurnTimeInput`, `setGuessTimeInput`, `setSpecialTurnTimeInput` — the
  settings-panel `onChange` handlers (source lines 289, 300, 311), each of
  which stores `parseInt(value) || default`.

`currentTime` and the settings durations are JavaScript numbers used as
integers, so they are embedded as `Int`.  A text input parse is embedded as
`Option Int`: `none` for a `NaN` result of `parseInt`, `some n` otherwise.
-/

inductive Phase where
  | turn
  | guess
deriving Repr, DecidableEq

inductive Mode where
  | regular
  | special
deriving Repr, DecidableEq

structure TimerSettings where
  turnTime : Int
  guessTime : Int
  specialTurnTime : Int
deriving Repr, DecidableEq

structure TimerState where
  isRunning : Bool
  currentTime : Int
  phase : Phase
  isFinished : Bool
  mode : Mode
  currentWord : Int
deriving Repr, DecidableEq

/-- Side-effect intents fired by the tick callback: the two audio cues
(`playBeep(1000,150)` / `playBuzzer()`) and the three toast notifications. -/
inductive Intent where
  | warningCue
  | buzzerCue
  | specialEndNotice
  | guessStartNotice (guessTime : Int)
  | regularEndNotice
deriving Repr, DecidableEq

/-- Initial settings state (source lines 24-28). -/
def defaultSettings : TimerSettings :=
  { turnTime := 60, guessTime := 30, specialTurnTime := 45 }

/-- Initial timer state (source lines 30-37). -/
def initialTimer : TimerState :=
  { isRunning := false, currentTime := 60, phase := Phase.turn,
    isFinished := false, mode := Mode.regular, currentWord := 1 }

/-- Body of the `setInterval` callback (source lines 98-150): decrement,
warning beep on `0 < newTime ≤ 5`, buzzer and branch by mode/phase on
`newTime == 0`, plain decrement otherwise.  Returns the new state and the
intents fired, in firing order. -/
def tickResult (settings : TimerSettings) (prev : TimerState) :
    TimerState × List Intent :=
  let newTime := prev.currentTime - 1
  let warn : List Intent :=
    if newTime ≤ 5 ∧ newTime > 0 then [Intent.warningCue] else []
  if newTime = 0 then
    if prev.mode = Mode.special then
      ({ prev with
          currentTime := settings.specialTurnTime
          isRunning := false
          isFinished := true },
       warn ++ [Intent.buzzerCue, Intent.specialEndNotice])
    else if prev.phase = Phase.turn then
      ({ prev with currentTime := settings.guessTime, phase := Phase.guess },
       warn ++ [Intent.buzzerCue, Intent.guessStartNotice settings.guessTime])
    else
      ({ prev with
          currentTime := settings.turnTime
          phase := Phase.turn
          isRunning := false
          isFinished := true },
       warn ++ [Intent.buzzerCue, Intent.regularEndNotice])
  else
    ({ prev with currentTime := newTime }, warn)

/-- The state part of one tick. -/
def tickState (settings : TimerSettings) (st : TimerState) : TimerState :=
  (tickResult settings st).1

/-- Iterate `n` ticks under fixed settings. -/
def runTicks (settings : TimerSettings) : Nat → TimerState → TimerState
  | 0, st => st
  | n + 1, st => runTicks settings n (tickState settings st)

/-- `startTimer` (source lines 166-176); the audio-context resume is a
side effect outside the state machine. -/
def startTimer (st : TimerState) : TimerState :=
  { st with isRunning := true, isFinished := false }

/-- `pauseTimer` (source lines 178-180). -/
def pauseTimer (st : TimerState) : TimerState :=
  { st with isRunning := false }

/-- `resetTimer` (source lines 182-192). -/
def resetTimer (settings : TimerSettings) (st : TimerState) : TimerState :=
  let newTime :=
    if st.mode = Mode.special then settings.specialTurnTime
    else settings.turnTime
  { st with
      isRunning := false
      currentTime := newTime
      phase := Phase.turn
      isFinished := false }

/-- `nextWord` (source lines 194-205).  Note the handler does not inspect
`mode`; the UI merely hides its button outside Special mode. -/
def nextWord (settings : TimerSettings) (st : TimerState) : TimerState :=
  let newWord := if st.currentWord < 5 then st.currentWord + 1 else 1
  { st with
      isRunning := false
      currentTime := settings.specialTurnTime
      phase := Phase.turn
      isFinished := false
      currentWord := newWord }

/-- `updateTimerToSettings` (source lines 207-220), the "apply settings"
command: recompute `currentTime` for the current mode/phase and stop. -/
def updateTimerToSettings (settings : TimerSettings) (st : TimerState) :
    TimerState :=
  let newTime :=
    if st.mode = Mode.special then settings.specialTurnTime
    else if st.phase = Phase.turn then settings.turnTime
    else settings.guessTime
  { st with currentTime := newTime, isRunning := false }

/-- `toggleMode` (source lines 234-247). -/
def toggleMode (settings : TimerSettings) (st : TimerState) : TimerState :=
  let newMode := if st.mode = Mode.regular then Mode.special else Mode.regular
  let newTime :=
    if newMode = Mode.special then settings.specialTurnTime
    else settings.turnTime
  { st with
      mode := newMode
      currentTime := newTime
      phase := Phase.turn
      isRunning := false
      isFinished := false
      currentWord := 1 }

/-- `parseInt(v) || d`: a `NaN` parse (`none`) and a parse of `0` both fall
back to the hardcoded default `d`; any other integer is kept. -/
def parsedOr (v : Option Int) (d : Int) : Int :=
  match v with
  | none => d
  | some n => if n = 0 then d else n

/-- `onChange` handler of the turn-time input (source line 289):
`turnTime: parseInt(e.target.value) || 60`. -/
def setTurnTimeInput (v : Option Int) (s : TimerSettings) : TimerSettings :=
  { s with turnTime := parsedOr v 60 }

/-- `onChange` handler of the guess-time input (source line 300):
`guessTime: parseInt(e.target.value) || 30`. -/
def setGuessTimeInput (v : Option Int) (s : TimerSettings) : TimerSettings :=
  { s with guessTime := parsedOr v 30 }

/-- `onChange` handler of the special-turn-time input (source line 311):
`specialTurnTime: parseInt(e.target.value) || 45`. -/
def setSpecialTurnTimeInput (v : Option Int) (s : TimerSettings) :
    TimerSettings :=
  { s with specialTurnTime := parsedOr v 45 }

/-- The state invariant of spec §3: nonnegative remaining time, never
running and finished at once, word index within 1..5. -/
def TimerInv (st : TimerState) : Prop :=
  0 ≤ st.currentTime ∧
  ¬(st.isRunning = true ∧ st.isFinished = true) ∧
  1 ≤ st.currentWord ∧ st.currentWord ≤ 5

instance (st : TimerState) : Decidable (TimerInv st) := by
  unfold TimerInv; infer_instance

/-- The settings bounds of spec §3: `turnTime, specialTurnTime ∈ [10,300]`,
`guessTime ∈ [5,120]`. -/
def SettingsInBounds (s : TimerSettings) : Prop :=
  10 ≤ s.turnTime ∧ s.turnTime ≤ 300 ∧
  5 ≤ s.guessTime ∧ s.guessTime ≤ 120 ∧
  10 ≤ s.specialTurnTime ∧ s.specialTurnTime ≤ 300

instance (s : TimerSettings) : Decidable (SettingsInBounds s) := by
  unfold SettingsInBounds; infer_instance

/-- Claim C7: `toggleMode` flips `mode` and forces `phase = Turn`,
`isRunning = false`, `isFinished = false`, `currentWord = 1` and
`currentTime` equal to the new mode's nominal duration; hence two calls,
possibly under different settings, return `mode` to its original value with
`currentTime` equal to that mode's nominal duration under the settings at
the second call. -/
theorem toggleMode_round_trip :
    ∀ (s1 s2 : TimerSettings) (st : TimerState),
      ((toggleMode s1 st).mode =
         (if st.mode = Mode.regular then Mode.special else Mode.regular) ∧
       (toggleMode s1 st).phase = Phase.turn ∧
       (toggleMode s1 st).isRunning = false ∧
       (toggleMode s1 st).isFinished = false ∧
       (toggleMode s1 st).currentWord = 1 ∧
       (toggleMode s1 st).currentTime =
         (if st.mode = Mode.regular then s1.specialTurnTime
          else s1.turnTime)) ∧
      (toggleMode s2 (toggleMode s1 st)).mode = st.mode ∧
      (toggleMode s2 (toggleMode s1 st)).phase = Phase.turn ∧
      (toggleMode s2 (toggleMode s1 st)).isRunning = false ∧
      (toggleMode s2 (toggleMode s1 st)).isFinished = false ∧
      (toggleMode s2 (toggleMode s1 st)).currentWord = 1 ∧
      (toggleMode s2 (toggleMode s1 st)).currentTime =
        (if st.mode = Mode.regular then s2.turnTime
         else s2.specialTurnTime) := by
  intro s1 s2 st
  rcases st with ⟨r, t, p, f, m, w⟩
  cases m <;> simp [toggleMode]

/-- Claim C8: `updateTimerToSettings` (the apply-settings command) sets
`currentTime` by the current mode and phase (Special → specialTurnTime,
Regular-Turn → turnTime, Regular-Guess → guessTime) and forces
`isRunning = false`, leaving `phase`, `mode`, `isFinished` and `currentWord`
unchanged; in particular applying turnTime 90 while paused in Regular-Turn
at `currentTime = 40` makes `currentTime` 90. -/
theorem updateTimerToSettings_effect :
    (∀ (s : TimerSettings) (st : TimerState),
      (updateTimerToSettings s st).currentTime =
        (if st.mode = Mode.special then s.specialTurnTime
         else if st.phase = Phase.turn then s.turnTime
         else s.guessTime) ∧
      (updateTimerToSettings s st).isRunning = false ∧
      (updateTimerToSettings s st).phase = st.phase ∧
      (updateTimerToSettings s st).mode = st.mode ∧
      (updateTimerToSettings s st).isFinished = st.isFinished ∧
      (updateTimerToSettings s st).currentWord = st.currentWord) ∧
    (updateTimerToSettings { defaultSettings with turnTime := 90 }
        { initialTimer with currentTime := 40 }).currentTime = 90 ∧
    (updateTimerToSettings { defaultSettings with turnTime := 90 }
        { initialTimer with currentTime := 40 }).isRunning = false := by
  refine ⟨fun s st => ?_, by decide, by decide⟩
  simp [updateTimerToSettings]

/-- Claim C9: `pauseTimer` is idempotent, and a single call only sets
`isRunning = false`, leaving `isFinished`, `currentTime`, `phase`, `mode`
and `currentWord` unchanged. -/
theorem pauseTimer_idempotent :
    ∀ st : TimerState,
      pauseTimer (pauseTimer st) = pauseTimer st ∧
      (pauseTimer st).isRunning = false ∧
      (pauseTimer st).isFinished = st.isFinished ∧
      (pauseTimer st).currentTime = st.currentTime ∧
      (pauseTimer st).phase = st.phase ∧
      (pauseTimer st).mode = st.mode ∧
      (pauseTimer st).currentWord = st.currentWord := by
  intro st
  simp [pauseTimer]

/-- Claim C10: `mode` is changed only by `toggleMode`: the tick handler and
the commands start, pause, reset, nextWord and apply-settings all leave
`mode` unchanged. -/
theorem mode_only_changed_by_toggleMode :
    ∀ (s : TimerSettings) (st : TimerState),
      (tickState s st).mode = st.mode ∧
      (startTimer st).mode = st.mode ∧
      (pauseTimer st).mode = st.mode ∧
      (resetTimer s st).mode = st.mode ∧
      (nextWord s st).mode = st.mode ∧
      (updateTimerToSettings s st).mode = st.mode := by
  intro s st
  refine ⟨?_, rfl, rfl, rfl, rfl, rfl⟩
  simp only [tickState, tickResult]
  split_ifs <;> rfl

set_option maxRecDepth 4000 in
/-- Claim C1: in Regular-Turn with the timer running and one second left, a
tick reaches `newTime = 0` and starts the guess phase: `currentTime` becomes
the guessTime setting, `phase` becomes Guess and `isRunning` stays as it
was (true), with every other field unchanged; concretely, starting
Regular-Turn with turnTime 60 and guessTime 30 and ticking 60 times gives
Guess phase, 30 seconds, running, not finished. -/
theorem tick_regular_turn_to_guess :
    (∀ (s : TimerSettings) (st : TimerState),
      st.mode = Mode.regular → st.phase = Phase.turn →
      st.isRunning = true → st.currentTime = 1 →
      tickState s st =
        { st with currentTime := s.guessTime, phase := Phase.guess }) ∧
    runTicks defaultSettings 60 (startTimer initialTimer) =
      { isRunning := true, currentTime := 30, phase := Phase.guess,
        isFinished := false, mode := Mode.regular, currentWord := 1 } := by
  constructor
  · intro s st hm hp hr ht
    simp [tickState, tickResult, ht, hm, hp]
  · decide

/-- Claim C1 witness: the Turn-to-Guess transition at a concrete state. -/
theorem tick_regular_turn_to_guess_witness :
    tickState defaultSettings
        { isRunning := true, currentTime := 1, phase := Phase.turn,
          isFinished := false, mode := Mode.regular, currentWord := 1 } =
      { isRunning := true, currentTime := 30, phase := Phase.guess,
        isFinished := false, mode := Mode.regular, currentWord := 1 } :=
  tick_regular_turn_to_guess.1 defaultSettings
    { isRunning := true, currentTime := 1, phase := Phase.turn,
      isFinished := false, mode := Mode.regular, currentWord := 1 }
    rfl rfl rfl rfl

/-- Claim C2: with the timer running and one second left, a tick that
reaches `newTime = 0` stops play in the two turn-ending branches, mode
checked before phase: in Special mode `currentTime` becomes
specialTurnTime, `isRunning` false, `isFinished` true, with `phase` and
`currentWord` unchanged; in Regular-Guess `currentTime` becomes turnTime,
`phase` becomes Turn, `isRunning` false, `isFinished` true. -/
theorem tick_turn_ending_branches :
    ∀ (s : TimerSettings) (st : TimerState),
      st.isRunning = true → st.currentTime = 1 →
      ((st.mode = Mode.special →
        tickState s st =
          { st with
              currentTime := s.specialTurnTime
              isRunning := false
              isFinished := true }) ∧
       (st.mode = Mode.regular → st.phase = Phase.guess →
        tickState s st =
          { st with
              currentTime := s.turnTime
              phase := Phase.turn
              isRunning := false
              isFinished := true })) := by
  intro s st hr ht
  constructor
  · intro hm
    simp [tickState, tickResult, ht, hm]
  · intro hm hp
    simp [tickState, tickResult, ht, hm, hp]

/-- Claim C2 witness: both turn-ending branches at concrete states. -/
theorem tick_turn_ending_branches_witness :
    tickState defaultSettings
        { isRunning := true, currentTime := 1, phase := Phase.turn,
          isFinished := false, mode := Mode.special, currentWord := 3 } =
      { isRunning := false, currentTime := 45, phase := Phase.turn,
        isFinished := true, mode := Mode.special, currentWord := 3 } ∧
    tickState defaultSettings
        { isRunning := true, currentTime := 1, phase := Phase.guess,
          isFinished := false, mode := Mode.regular, currentWord := 1 } =
      { isRunning := false, currentTime := 60, phase := Phase.turn,
        isFinished := true, mode := Mode.regular, currentWord := 1 } :=
  ⟨(tick_turn_ending_branches defaultSettings
      { isRunning := true, currentTime := 1, phase := Phase.turn,
        isFinished := false, mode := Mode.special, currentWord := 3 }
      rfl rfl).1 rfl,
   (tick_turn_ending_branches defaultSettings
      { isRunning := true, currentTime := 1, phase := Phase.guess,
        isFinished := false, mode := Mode.regular, currentWord := 1 }
      rfl rfl).2 rfl rfl⟩

/-- Claim C3: on a tick processed while running with time left, the warning
cue fires exactly once when the new time is in 1..5, the buzzer fires
exactly once when the new time is 0, and when the new time is above 5 no
intent at all fires and the tick changes only `currentTime`. -/
theorem tick_cue_policy :
    ∀ (s : TimerSettings) (st : TimerState),
      st.isRunning = true → 0 < st.currentTime →
      (((tickResult s st).2.count Intent.warningCue = 1) ↔
        (1 ≤ st.currentTime - 1 ∧ st.currentTime - 1 ≤ 5)) ∧
      (((tickResult s st).2.count Intent.buzzerCue = 1) ↔
        st.currentTime - 1 = 0) ∧
      (5 < st.currentTime - 1 →
        (tickResult s st).2 = [] ∧
        (tickResult s st).1 = { st with currentTime := st.currentTime - 1 }) := by
  intro s st _ ht
  simp only [tickResult]
  split_ifs with h0 hm hp hw hw' <;>
    simp_all [List.count_cons, List.count_nil] <;> omega

/-- Claim C3 witness: the warning cue at five seconds left and the buzzer
at one second left, on concrete states. -/
theorem tick_cue_policy_witness :
    (tickResult defaultSettings
        { isRunning := true, currentTime := 6, phase := Phase.turn,
          isFinished := false, mode := Mode.regular, currentWord := 1 }).2.count
      Intent.warningCue = 1 ∧
    (tickResult defaultSettings
        { isRunning := true, currentTime := 1, phase := Phase.turn,
          isFinished := false, mode := Mode.regular, currentWord := 1 }).2.count
      Intent.buzzerCue = 1 :=
  ⟨(tick_cue_policy defaultSettings
      { isRunning := true, currentTime := 6, phase := Phase.turn,
        isFinished := false, mode := Mode.regular, currentWord := 1 }
      rfl (by decide)).1.mpr (by decide),
   (tick_cue_policy defaultSettings
      { isRunning := true, currentTime := 1, phase := Phase.turn,
        isFinished := false, mode := Mode.regular, currentWord := 1 }
      rfl (by decide)).2.1.mpr (by decide)⟩

/-- Claim C4: the initial state satisfies the §3 invariant (nonnegative
time, never running-and-finished, word index in 1..5), and every operation
— tick under its precondition, start, pause, reset, nextWord, toggleMode
and apply-settings — preserves it, the settings being within the §3
bounds. -/
theorem timer_invariant_preserved :
    TimerInv initialTimer ∧
    ∀ (s : TimerSettings) (st : TimerState),
      SettingsInBounds s → TimerInv st →
      ((st.isRunning = true → 0 < st.currentTime →
          TimerInv (tickState s st)) ∧
       TimerInv (startTimer st) ∧
       TimerInv (pauseTimer st) ∧
       TimerInv (resetTimer s st) ∧
       TimerInv (nextWord s st) ∧
       TimerInv (toggleMode s st) ∧
       TimerInv (updateTimerToSettings s st)) := by
  refine ⟨by decide, fun s st hs hinv => ?_⟩
  obtain ⟨h1, h2, h3, h4⟩ := hinv
  obtain ⟨b1, b2, b3, b4, b5, b6⟩ := hs
  refine ⟨fun hr ht => ?_, ?_, ?_, ?_, ?_, ?_, ?_⟩ <;>
    simp_all [TimerInv, tickState, tickResult, startTimer, pauseTimer,
      resetTimer, nextWord, updateTimerToSettings, toggleMode] <;>
    split_ifs <;> (try simp_all) <;> omega

/-- Claim C4 witness: the invariant after a tick from the started initial
state under the default settings. -/
theorem timer_invariant_preserved_witness :
    TimerInv (tickState defaultSettings (startTimer initialTimer)) :=
  (timer_invariant_preserved.2 defaultSettings (startTimer initialTimer)
    (by decide) (by decide)).1 rfl (by decide)

/-- Claim C5 counterexample: the settings handlers do not enforce the §3
bounds and do not revert to the previous valid value.  Typing 500 into the
turn-time input stores 500, outside [10,300]; a non-numeric entry while
turnTime is 90 stores the hardcoded default 60, not the previous 90. -/
theorem settings_bounds_not_enforced :
    (setTurnTimeInput (some 500) defaultSettings).turnTime = 500 ∧
    ¬ SettingsInBounds (setTurnTimeInput (some 500) defaultSettings) ∧
    (setTurnTimeInput none { defaultSettings with turnTime := 90 }).turnTime
      = 60 := by
  decide

/-- Claim C5 amended: each settings handler stores any nonzero parsed
integer as typed, with no bounds check (the [10,300] and [5,120] bounds
appear only as HTML min/max attributes); a non-numeric or zero parse falls
back to that field's hardcoded default (60, 30 or 45), not to the previous
value; each handler leaves the other two settings fields unchanged. -/
theorem settings_input_behavior :
    ∀ (n : Int) (s : TimerSettings),
      (n ≠ 0 →
        (setTurnTimeInput (some n) s).turnTime = n ∧
        (setGuessTimeInput (some n) s).guessTime = n ∧
        (setSpecialTurnTimeInput (some n) s).specialTurnTime = n) ∧
      (setTurnTimeInput none s).turnTime = 60 ∧
      (setGuessTimeInput none s).guessTime = 30 ∧
      (setSpecialTurnTimeInput none s).specialTurnTime = 45 ∧
      (setTurnTimeInput (some 0) s).turnTime = 60 ∧
      (setGuessTimeInput (some 0) s).guessTime = 30 ∧
      (setSpecialTurnTimeInput (some 0) s).specialTurnTime = 45 ∧
      (setTurnTimeInput (some n) s).guessTime = s.guessTime ∧
      (setTurnTimeInput (some n) s).specialTurnTime = s.specialTurnTime ∧
      (setGuessTimeInput (some n) s).turnTime = s.turnTime ∧
      (setGuessTimeInput (some n) s).specialTurnTime = s.specialTurnTime ∧
      (setSpecialTurnTimeInput (some n) s).turnTime = s.turnTime ∧
      (setSpecialTurnTimeInput (some n) s).guessTime = s.guessTime := by
  intro n s
  refine ⟨fun h => ?_, ?_⟩ <;>
    simp_all [setTurnTimeInput, setGuessTimeInput, setSpecialTurnTimeInput,
      parsedOr]

/-- Claim C5 witness: out-of-bounds numeric input is stored as typed. -/
theorem settings_input_behavior_witness :
    (setTurnTimeInput (some 500) defaultSettings).turnTime = 500 ∧
    (setGuessTimeInput (some 500) defaultSettings).guessTime = 500 ∧
    (setSpecialTurnTimeInput (some 500) defaultSettings).specialTurnTime
      = 500 :=
  (settings_input_behavior 500 defaultSettings).1 (by decide)

/-- Claim C6 counterexample: `nextWord` invoked in Regular mode is not a
no-op — from the initial state it changes `currentTime` (60 to 45) and
advances `currentWord` (1 to 2). -/
theorem nextWord_regular_not_noop :
    initialTimer.mode = Mode.regular ∧
    nextWord defaultSettings initialTimer ≠ initialTimer := by
  decide

/-- Claim C6 amended: the `nextWord` handler never inspects `mode` (the UI
only hides its button outside Special mode), so invoked in Regular mode it
acts exactly as in Special mode: it sets `isRunning` false, `currentTime`
to specialTurnTime, `phase` to Turn, `isFinished` false, and advances
`currentWord` with 5-to-1 wraparound, leaving `mode` unchanged. -/
theorem nextWord_in_regular_mode :
    ∀ (s : TimerSettings) (st : TimerState),
      st.mode = Mode.regular →
      nextWord s st =
        { st with
            isRunning := false
            currentTime := s.specialTurnTime
            phase := Phase.turn
            isFinished := false
            currentWord :=
              if st.currentWord < 5 then st.currentWord + 1 else 1 } := by
  intro s st _
  rfl

/-- Claim C6 witness: the amended description at the initial state. -/
theorem nextWord_in_regular_mode_witness :
    nextWord defaultSettings initialTimer =
      { initialTimer with
          isRunning := false
          currentTime := defaultSettings.specialTurnTime
          phase := Phase.turn
          isFinished := false
          currentWord :=
            if initialTimer.currentWord < 5 then initialTimer.currentWord + 1
            else 1 } :=
  nextWord_in_regular_mode defaultSettings initialTimer rfl
